import Mathlib

/-
Verification of packages/fxa-auth-server/error.js: the error-normalization
boundary `errors.wrap` together with its helper factory functions.

The embedding is shallow: JavaScript objects become ordered lists of
(key, value) pairs over a small value type `JVal`; `errors.wrap` becomes a
pure function from a raw error to the final wire-error object paired with
the list of log events it emits (`log.error` calls).  The third-party
Hoek/Boom helpers that error.js calls are not part of the repository; their
net effect is modelled from the spec (each such definition is marked
"Modelled from the spec:").  A second, heap-based rendering of wrap
(`wrapH`) makes the mutation behaviour explicit for the frame claim.
-/

namespace Fxa

/-- JavaScript values, as far as error.js distinguishes them: numbers
(modelled as integers; the file only ever compares against integer
literals), strings, and everything else (`other` stands for any value that
is neither a number nor a string, e.g. objects, booleans or null). -/
inductive JVal where
  | num (n : Int)
  | str (s : String)
  | other
deriving DecidableEq, Repr

/-- A JavaScript object, rendered as its ordered list of enumerable own
properties.  Reading an absent key yields `none` (JS `undefined`). -/
abbrev Obj := List (String × JVal)

/-- Property read: first binding of the key, `none` when absent. -/
def lookupField : Obj → String → Option JVal
  | [], _ => none
  | (k', v) :: rest, k => if k' = k then some v else lookupField rest k

/-- Property write: JS assignment keeps the insertion position of an
existing key and appends a fresh key at the end. -/
def setField : Obj → String → JVal → Obj
  | [], k, v => [(k, v)]
  | (k', v') :: rest, k, v =>
      if k' = k then (k, v) :: rest else (k', v') :: setField rest k v

/-- Modelled from the spec: Hoek.merge (hapi's utils, not part of this
repository).  Per spec section 4.4 the merge overlays every enumerable
field of the source object onto the target, in order. -/
def mergeObj (target source : Obj) : Obj :=
  source.foldl (fun acc kv => setField acc kv.1 kv.2) target

/-- Modelled from the spec: Hoek.applyToDefaults clones the defaults and
overlays the caller's enumerable fields onto the clone (spec section 4.4
step 1); in the pure setting the clone is implicit. -/
def applyToDefaults (defaults options : Obj) : Obj :=
  mergeObj defaults options

/-- The documentation URL of the DEFAULTS object (error.js line 10). -/
def infoURL : String :=
  "https://github.com/mozilla/fxa-auth-server/blob/master/docs/api.md#response-format"

/-- The module-level DEFAULTS object of error.js (lines 8-11). -/
def DEFAULTS : Obj :=
  [("message", JVal.str "Unspecified error"), ("info", JVal.str infoURL)]

/-- A raw error passed to wrap: its enumerable own properties, plus an
optional own non-enumerable `message` (Error instances carry one; error.js
special-cases it via hasOwnProperty, lines 38-40).  `nonEnumMessage` is
only meaningful when "message" does not occur among `fields`. -/
structure RawError where
  fields : Obj
  nonEnumMessage : Option JVal
deriving DecidableEq, Repr

/-- The value of `srcObject.message` (own property, enumerable or not),
`none` when the object has no own message. -/
def srcMessage (src : RawError) : Option JVal :=
  match lookupField src.fields "message" with
  | some m => some m
  | none => src.nonEnumMessage

/-- Lines 37-40 of error.js, with the defaults object abstracted: merge the
source over the defaults, then re-copy `message` whenever the source has an
own message property. -/
def workingOn (defaults : Obj) (src : RawError) : Obj :=
  match srcMessage src with
  | some m => setField (applyToDefaults defaults src.fields) "message" m
  | none => applyToDefaults defaults src.fields

/-- The working object of wrap after lines 37-40. -/
def working (src : RawError) : Obj :=
  workingOn DEFAULTS src

/-- The working object's message: the source's own message when present,
else the default. -/
def workingMessage (src : RawError) : JVal :=
  (srcMessage src).getD (JVal.str "Unspecified error")

/-- The TOO_LARGE regex of error.js line 13,
`Payload (?:content length|size) greater than maximum allowed`,
case-sensitive and anchored at the start only: a prefix test. -/
def tooLargeStr (s : String) : Bool :=
  "Payload content length greater than maximum allowed".data.isPrefixOf s.data ||
  "Payload size greater than maximum allowed".data.isPrefixOf s.data

/-- TOO_LARGE.test applied to an arbitrary property value.  Non-string
values are modelled as non-matching: a number's decimal rendering never
starts with "Payload", and coercions of other values are out of scope. -/
def tooLargeJ : Option JVal → Bool
  | some (JVal.str s) => tooLargeStr s
  | _ => false

/-- JavaScript truthiness on JVal: zero and the empty string are falsy.
`other` is treated as truthy (objects are truthy; null and false are not
separately modelled, and no claim depends on them). -/
def jsTruthy : JVal → Bool
  | JVal.num n => n != 0
  | JVal.str s => s != ""
  | JVal.other => true

/-- JavaScript `a or-else b` (the || operator) on an optionally-present
value, as used by invalidSignature line 166. -/
def jsOr (v : Option JVal) (dflt : JVal) : JVal :=
  match v with
  | some w => if jsTruthy w then w else dflt
  | none => dflt

/-- The object literal passed to wrap by errors.invalidToken (lines 170-176). -/
def invalidTokenRaw : RawError :=
  ⟨[("code", JVal.num 401), ("errno", JVal.num 110),
    ("message", JVal.str "Invalid authentication token in request signature")], none⟩

/-- The object literal passed to wrap by errors.invalidTimestamp
(lines 178-185); `now` is the clock reading in milliseconds since the
epoch, so serverTime is Math.floor(now / 1000). -/
def invalidTimestampRaw (now : Nat) : RawError :=
  ⟨[("code", JVal.num 401), ("errno", JVal.num 111),
    ("message", JVal.str "Invalid timestamp in request signature"),
    ("serverTime", JVal.num (Int.ofNat (now / 1000)))], none⟩

/-- The object literal passed to wrap by errors.invalidNonce (lines 187-193). -/
def invalidNonceRaw : RawError :=
  ⟨[("code", JVal.num 401), ("errno", JVal.num 115),
    ("message", JVal.str "Invalid nonce in request signature")], none⟩

/-- The object literal passed to wrap by errors.invalidSignature
(lines 162-168); its argument is wrap's working message. -/
def invalidSignatureRaw (m : Option JVal) : RawError :=
  ⟨[("code", JVal.num 401), ("errno", JVal.num 109),
    ("message", jsOr m (JVal.str "Invalid request signature"))], none⟩

/-- The object literal passed to wrap by errors.requestBodyTooLarge
(lines 203-209). -/
def requestBodyTooLargeRaw : RawError :=
  ⟨[("code", JVal.num 413), ("errno", JVal.num 113),
    ("message", JVal.str "Request body too large")], none⟩

/-- Lines 67-75 of error.js: derive a status code when `code` is absent
(401 for errno 109/110/111, else 400), and force 500 when `code` is
present but not a number. -/
def sanitizeCode (o : Obj) : Obj :=
  match lookupField o "code" with
  | none =>
      if lookupField o "errno" = some (JVal.num 109) ∨
         lookupField o "errno" = some (JVal.num 110) ∨
         lookupField o "errno" = some (JVal.num 111) then
        setField o "code" (JVal.num 401)
      else
        setField o "code" (JVal.num 400)
  | some (JVal.num _) => o
  | some _ => setField o "code" (JVal.num 500)

/-- One structured event passed to log.error (error severity by
construction: error.js only ever calls log.error). -/
structure LogEvent where
  op : String
  msg : String
  err : Obj
deriving DecidableEq, Repr

/-- Lines 79-82 of error.js: when errno is still undefined, log the working
object (as it stands, before errno is written) and set errno to 999. -/
def finalizeErrno (o : Obj) : Obj × List LogEvent :=
  match lookupField o "errno" with
  | none => (setField o "errno" (JVal.num 999), [⟨"error.wrap", "unexpected error", o⟩])
  | some _ => (o, [])

/-- Modelled from the spec: the generic HTTP status label that hapi's Boom
places in the `error` field of its payload (spec section 6 calls it an
optional generic label). -/
def statusLabel : JVal → String
  | JVal.num 400 => "Bad Request"
  | JVal.num 401 => "Unauthorized"
  | JVal.num 411 => "Length Required"
  | JVal.num 413 => "Request Entity Too Large"
  | JVal.num 429 => "Too Many Requests"
  | JVal.num 500 => "Internal Server Error"
  | JVal.num 503 => "Service Unavailable"
  | _ => "Unknown"

/-- Modelled from the spec: the payload of `new Boom(code, message)` before
the merge, holding the status code, its generic label, and the message.
At both call sites in wrap the object has a code and a message, so the
`.getD JVal.other` defaults are never observable. -/
def boomPayload (code message : JVal) : Obj :=
  [("code", code), ("error", JVal.str (statusLabel code)), ("message", message)]

/-- Lines 85-87 of error.js: build the Boom payload from the object's code
and message and merge every accumulated field onto it.  Per spec section
4.4 step 5 this terminal transformation never raises. -/
def boomify (o : Obj) : Obj :=
  mergeObj (boomPayload ((lookupField o "code").getD JVal.other)
                        ((lookupField o "message").getD JVal.other)) o

/-- The tail of wrap (lines 65-87) shared by every path: sanitize the
status code, default errno to 999 with a log event, and boomify. -/
def postStages (co : Obj × List LogEvent) : Obj × List LogEvent :=
  (boomify (finalizeErrno (sanitizeCode co.1)).1,
   co.2 ++ (finalizeErrno (sanitizeCode co.1)).2)

/-- Lines 33-88 of error.js: errors.wrap.  The object is merged over the
defaults with the message re-copied (lines 37-40, here `working`); when its
errno is undefined the code-401/400 heuristics may replace it with the
payload of a recursive wrap call made by the matching factory function
(lines 43-63); the tail (lines 65-87, here `postStages`) sanitizes the
status code, defaults errno to 999 with one log.error event, and merges
everything onto a fresh Boom payload.  The recursion terminates because
every factory passes an object that already carries an errno. -/
def wrap (now : Nat) (src : RawError) : Obj × List LogEvent :=
  postStages
    (if h9 : lookupField (working src) "errno" = none then
      if lookupField (working src) "code" = some (JVal.num 401) then
        if lookupField (working src) "message" = some (JVal.str "Unknown credentials") then
          wrap now invalidTokenRaw
        else if lookupField (working src) "message" = some (JVal.str "Invalid credentials") then
          wrap now invalidTokenRaw
        else if lookupField (working src) "message" = some (JVal.str "Stale timestamp") then
          wrap now (invalidTimestampRaw now)
        else if lookupField (working src) "message" = some (JVal.str "Invalid nonce") then
          wrap now invalidNonceRaw
        else
          wrap now (invalidSignatureRaw (lookupField (working src) "message"))
      else if lookupField (working src) "code" = some (JVal.num 400) then
        if tooLargeJ (lookupField (working src) "message") then
          wrap now requestBodyTooLargeRaw
        else (working src, [])
      else (working src, [])
    else (working src, []))
termination_by (if lookupField (working src) "errno" = none then 1 else 0)
decreasing_by
  all_goals rw [if_pos h9]
  all_goals first
    | (rw [show lookupField (working invalidTokenRaw) "errno" = some (JVal.num 110) from rfl]
       simp)
    | (rw [show lookupField (working (invalidTimestampRaw now)) "errno" =
          some (JVal.num 111) from rfl]
       simp)
    | (rw [show lookupField (working invalidNonceRaw) "errno" = some (JVal.num 115) from rfl]
       simp)
    | (rw [show lookupField (working (invalidSignatureRaw
            (lookupField (working src) "message"))) "errno" = some (JVal.num 109) from rfl]
       simp)
    | (rw [show lookupField (working requestBodyTooLargeRaw) "errno" =
          some (JVal.num 113) from rfl]
       simp)

/-- The wire payload produced by errors.invalidToken. -/
def tokenPayload : Obj :=
  [("code", JVal.num 401), ("error", JVal.str "Unauthorized"),
   ("message", JVal.str "Invalid authentication token in request signature"),
   ("info", JVal.str infoURL), ("errno", JVal.num 110)]

/-- The wire payload produced by errors.invalidTimestamp at clock `now`. -/
def tsPayload (now : Nat) : Obj :=
  [("code", JVal.num 401), ("error", JVal.str "Unauthorized"),
   ("message", JVal.str "Invalid timestamp in request signature"),
   ("info", JVal.str infoURL), ("errno", JVal.num 111),
   ("serverTime", JVal.num (Int.ofNat (now / 1000)))]

/-- The wire payload produced by errors.invalidNonce. -/
def noncePayload : Obj :=
  [("code", JVal.num 401), ("error", JVal.str "Unauthorized"),
   ("message", JVal.str "Invalid nonce in request signature"),
   ("info", JVal.str infoURL), ("errno", JVal.num 115)]

/-- The wire payload produced by errors.invalidSignature on message `m`. -/
def sigPayload (m : Option JVal) : Obj :=
  [("code", JVal.num 401), ("error", JVal.str "Unauthorized"),
   ("message", jsOr m (JVal.str "Invalid request signature")),
   ("info", JVal.str infoURL), ("errno", JVal.num 109)]

/-- The wire payload produced by errors.requestBodyTooLarge. -/
def tooLargePayload : Obj :=
  [("code", JVal.num 413), ("error", JVal.str "Request Entity Too Large"),
   ("message", JVal.str "Request body too large"),
   ("info", JVal.str infoURL), ("errno", JVal.num 113)]


/-- Whether the Classifier block (lines 43-63) maps an errno-less working
object to a catalog entry: every code-401 object maps (the final else of
lines 54-56 catches all messages), and a code-400 object maps exactly when
its message matches TOO_LARGE; any other code never maps. -/
def classifierMaps (o : Obj) : Bool :=
  if lookupField o "code" = some (JVal.num 401) then true
  else if lookupField o "code" = some (JVal.num 400) then
    tooLargeJ (lookupField o "message")
  else false

/-- A heap of JavaScript objects; addresses are list indices.  The heap
model renders wrap's assignments as explicit writes so that the frame
behaviour (which objects wrap mutates) becomes provable; reading an
unallocated address yields the empty object. -/
abbrev Heap := List Obj

/-- Heap read. -/
def hread (h : Heap) (a : Nat) : Obj := h.getD a []

/-- Heap write (in-place property assignment on the object at `a`). -/
def hwrite (h : Heap) (a : Nat) (o : Obj) : Heap := h.set a o

/-- Allocation of a fresh object; its address is the old heap length. -/
def halloc (h : Heap) (o : Obj) : Heap := h ++ [o]

/-- The value the working object holds after lines 37-40, heap version:
`srcA` is the address of srcObject and `defA` the address of DEFAULTS.
The heap model does not track the enumerability of `message` (it matters
only for reads, and the heap model is used for the frame claim). -/
def workObj (h : Heap) (srcA defA : Nat) : Obj :=
  workingOn (hread h defA) ⟨hread h srcA, none⟩

/-- Lines 37-40 of error.js, heap version: allocate the applyToDefaults
clone at address `h.length`, then re-copy `message` in place when the
source has one. -/
def workHeap (h : Heap) (srcA defA : Nat) : Heap :=
  match lookupField (hread h srcA) "message" with
  | some m =>
      hwrite (halloc h (applyToDefaults (hread h defA) (hread h srcA))) h.length
        (setField (hread (halloc h (applyToDefaults (hread h defA) (hread h srcA))) h.length)
          "message" m)
  | none => halloc h (applyToDefaults (hread h defA) (hread h srcA))

/-- The tail of wrap (lines 65-87), heap version: write the sanitized code
into the object cell at `objA`, default errno to 999 in place after
logging, then allocate the Boom payload and merge the object onto it in
place; returns the heap, the payload's address, and the log events. -/
def wrapTailH (h : Heap) (objA : Nat) : Heap × Nat × List LogEvent :=
  let h1 := hwrite h objA (sanitizeCode (hread h objA))
  let fin := finalizeErrno (hread h1 objA)
  let h2 := hwrite h1 objA fin.1
  let base := boomPayload ((lookupField (hread h2 objA) "code").getD JVal.other)
                          ((lookupField (hread h2 objA) "message").getD JVal.other)
  let h3 := halloc h2 base
  let h4 := hwrite h3 h2.length (mergeObj (hread h3 h2.length) (hread h3 objA))
  (h4, h2.length, fin.2)

/-- Heap version of wrap for a source that already carries an errno — the
shape of every recursive wrap call made by the factory helpers: lines
37-40 followed directly by the tail, the classification block of lines
43-63 being skipped; wrap_errno_present is the pure-model theorem
justifying this expansion. -/
def wrapNoClassifyH (h : Heap) (srcA defA : Nat) : Heap × Nat × List LogEvent :=
  wrapTailH (workHeap h srcA defA) h.length

/-- Combine a classification result (heap, object address, inner logs)
with the tail of wrap. -/
def wrapFinishH (t : Heap × Nat × List LogEvent) : Heap × Nat × List LogEvent :=
  ((wrapTailH t.1 t.2.1).1, (wrapTailH t.1 t.2.1).2.1, t.2.2 ++ (wrapTailH t.1 t.2.1).2.2)

/-- Heap version of errors.wrap (lines 33-88).  The factory calls of lines
47-60 allocate their object literal and wrap it recursively; each such
literal carries an errno, so the inner calls are expanded to
wrapNoClassifyH. -/
def wrapH (now : Nat) (h : Heap) (srcA defA : Nat) : Heap × Nat × List LogEvent :=
  wrapFinishH
    (if lookupField (workObj h srcA defA) "errno" = none then
      if lookupField (workObj h srcA defA) "code" = some (JVal.num 401) then
        if lookupField (workObj h srcA defA) "message" = some (JVal.str "Unknown credentials") then
          wrapNoClassifyH (halloc (workHeap h srcA defA) invalidTokenRaw.fields)
            (workHeap h srcA defA).length defA
        else if lookupField (workObj h srcA defA) "message" = some (JVal.str "Invalid credentials") then
          wrapNoClassifyH (halloc (workHeap h srcA defA) invalidTokenRaw.fields)
            (workHeap h srcA defA).length defA
        else if lookupField (workObj h srcA defA) "message" = some (JVal.str "Stale timestamp") then
          wrapNoClassifyH (halloc (workHeap h srcA defA) (invalidTimestampRaw now).fields)
            (workHeap h srcA defA).length defA
        else if lookupField (workObj h srcA defA) "message" = some (JVal.str "Invalid nonce") then
          wrapNoClassifyH (halloc (workHeap h srcA defA) invalidNonceRaw.fields)
            (workHeap h srcA defA).length defA
        else
          wrapNoClassifyH (halloc (workHeap h srcA defA)
              (invalidSignatureRaw (lookupField (workObj h srcA defA) "message")).fields)
            (workHeap h srcA defA).length defA
      else if lookupField (workObj h srcA defA) "code" = some (JVal.num 400) then
        if tooLargeJ (lookupField (workObj h srcA defA) "message") = true then
          wrapNoClassifyH (halloc (workHeap h srcA defA) requestBodyTooLargeRaw.fields)
            (workHeap h srcA defA).length defA
        else (workHeap h srcA defA, h.length, [])
      else (workHeap h srcA defA, h.length, [])
    else (workHeap h srcA defA, h.length, []))

theorem lookupField_setField (o : Obj) (k : String) (v : JVal) (k' : String) :
    lookupField (setField o k v) k' = if k = k' then some v else lookupField o k' := by
  induction o with
  | nil => by_cases h : k = k' <;> simp [setField, lookupField, h]
  | cons a rest ih =>
      obtain ⟨ka, va⟩ := a
      by_cases h1 : ka = k
      · subst h1
        by_cases h2 : ka = k' <;> simp [setField, lookupField, h2]
      · by_cases h2 : ka = k'
        · subst h2
          have hne : ¬ k = ka := fun hh => h1 hh.symm
          simp [setField, lookupField, h1, hne]
        · simp [setField, lookupField, h1, h2, ih]

theorem lookupField_eq_none_iff (s : Obj) (k : String) :
    lookupField s k = none ↔ k ∉ s.map Prod.fst := by
  induction s with
  | nil => simp [lookupField]
  | cons a rest ih =>
      obtain ⟨ka, va⟩ := a
      by_cases h : ka = k
      · subst h; simp [lookupField]
      · simp only [lookupField, if_neg h]
        rw [ih]
        simp only [List.map_cons, List.mem_cons]
        constructor
        · intro hn hc
          rcases hc with hc | hc
          · exact h hc.symm
          · exact hn hc
        · intro hn hc
          exact hn (Or.inr hc)

theorem lookupField_mergeObj_notmem (s : Obj) (k : String) (h : k ∉ s.map Prod.fst) :
    ∀ t : Obj, lookupField (mergeObj t s) k = lookupField t k := by
  induction s with
  | nil => intro t; simp [mergeObj]
  | cons a rest ih =>
      intro t
      obtain ⟨ka, va⟩ := a
      simp only [List.map_cons, List.mem_cons] at h
      push_neg at h
      have heq : mergeObj t ((ka, va) :: rest) = mergeObj (setField t ka va) rest := rfl
      rw [heq, ih h.2, lookupField_setField]
      exact if_neg (fun hh => h.1 hh.symm)

theorem lookupField_mergeObj_of_some (s : Obj) (k : String) (v : JVal)
    (hnd : (s.map Prod.fst).Nodup) (h : lookupField s k = some v) :
    ∀ t : Obj, lookupField (mergeObj t s) k = some v := by
  induction s with
  | nil => simp [lookupField] at h
  | cons a rest ih =>
      intro t
      obtain ⟨ka, va⟩ := a
      simp only [List.map_cons, List.nodup_cons] at hnd
      have heq : mergeObj t ((ka, va) :: rest) = mergeObj (setField t ka va) rest := rfl
      by_cases hk : ka = k
      · subst hk
        have hv : va = v := by simpa [lookupField] using h
        subst hv
        rw [heq, lookupField_mergeObj_notmem rest ka hnd.1, lookupField_setField]
        simp
      · have h' : lookupField rest k = some v := by simpa [lookupField, hk] using h
        rw [heq]
        exact ih hnd.2 h' _

theorem lookupField_mergeObj_of_none (s : Obj) (k : String)
    (h : lookupField s k = none) (t : Obj) :
    lookupField (mergeObj t s) k = lookupField t k :=
  lookupField_mergeObj_notmem s k ((lookupField_eq_none_iff s k).mp h) t

theorem setField_cons_hit (ka : String) (va : JVal) (rest : Obj) (v : JVal) :
    setField ((ka, va) :: rest) ka v = (ka, v) :: rest := by
  simp [setField]

theorem setField_cons_miss (ka : String) (va : JVal) (rest : Obj) (k : String) (v : JVal)
    (h : ¬ ka = k) : setField ((ka, va) :: rest) k v = (ka, va) :: setField rest k v := by
  simp [setField, h]

theorem mem_keys_setField (o : Obj) (k : String) (v : JVal) (x : String)
    (h : x ∈ (setField o k v).map Prod.fst) : x ∈ o.map Prod.fst ∨ x = k := by
  induction o with
  | nil =>
      simp only [setField, List.map_cons, List.map_nil, List.mem_singleton] at h
      exact Or.inr h
  | cons a rest ih =>
      obtain ⟨ka, va⟩ := a
      by_cases h1 : ka = k
      · subst h1
        rw [setField_cons_hit] at h
        simp only [List.map_cons, List.mem_cons] at h ⊢
        rcases h with h | h
        · exact Or.inr h
        · exact Or.inl (Or.inr h)
      · rw [setField_cons_miss ka va rest k v h1] at h
        simp only [List.map_cons, List.mem_cons] at h ⊢
        rcases h with h | h
        · exact Or.inl (Or.inl h)
        · rcases ih h with h' | h'
          · exact Or.inl (Or.inr h')
          · exact Or.inr h'

theorem nodup_keys_setField (o : Obj) (k : String) (v : JVal)
    (h : (o.map Prod.fst).Nodup) : ((setField o k v).map Prod.fst).Nodup := by
  induction o with
  | nil => simp [setField]
  | cons a rest ih =>
      obtain ⟨ka, va⟩ := a
      simp only [List.map_cons, List.nodup_cons] at h
      by_cases h1 : ka = k
      · subst h1
        rw [setField_cons_hit]
        simp only [List.map_cons, List.nodup_cons]
        exact ⟨h.1, h.2⟩
      · rw [setField_cons_miss ka va rest k v h1]
        simp only [List.map_cons, List.nodup_cons]
        refine ⟨fun hm => ?_, ih h.2⟩
        rcases mem_keys_setField rest k v ka hm with h' | h'
        · exact h.1 h'
        · exact h1 h'

theorem nodup_keys_mergeObj (s : Obj) :
    ∀ t : Obj, (t.map Prod.fst).Nodup → ((mergeObj t s).map Prod.fst).Nodup := by
  induction s with
  | nil => intro t h; exact h
  | cons a rest ih =>
      intro t h
      obtain ⟨ka, va⟩ := a
      have heq : mergeObj t ((ka, va) :: rest) = mergeObj (setField t ka va) rest := rfl
      rw [heq]
      exact ih _ (nodup_keys_setField t ka va h)

theorem nodup_keys_boomPayload (c m : JVal) : ((boomPayload c m).map Prod.fst).Nodup := by
  have h : (boomPayload c m).map Prod.fst = ["code", "error", "message"] := rfl
  rw [h]
  decide

theorem nodup_keys_boomify (o : Obj) : ((boomify o).map Prod.fst).Nodup :=
  nodup_keys_mergeObj o _ (nodup_keys_boomPayload _ _)

theorem lookupField_boomify_of_some (o : Obj) (k : String) (v : JVal)
    (hnd : (o.map Prod.fst).Nodup) (h : lookupField o k = some v) :
    lookupField (boomify o) k = some v :=
  lookupField_mergeObj_of_some o k v hnd h _

theorem sanitizeCode_code_none (o : Obj) (h : lookupField o "code" = none) :
    sanitizeCode o =
      (if lookupField o "errno" = some (JVal.num 109) ∨
          lookupField o "errno" = some (JVal.num 110) ∨
          lookupField o "errno" = some (JVal.num 111) then
        setField o "code" (JVal.num 401)
      else
        setField o "code" (JVal.num 400)) := by
  unfold sanitizeCode
  rw [h]

theorem sanitizeCode_code_num (o : Obj) (n : Int)
    (h : lookupField o "code" = some (JVal.num n)) : sanitizeCode o = o := by
  unfold sanitizeCode
  rw [h]

theorem sanitizeCode_code_nonnum (o : Obj) (v : JVal)
    (h : lookupField o "code" = some v) (hv : ∀ n : Int, v ≠ JVal.num n) :
    sanitizeCode o = setField o "code" (JVal.num 500) := by
  unfold sanitizeCode
  rw [h]
  cases v with
  | num n => exact absurd rfl (hv n)
  | str s => rfl
  | other => rfl

theorem lookupField_sanitizeCode_of_ne (o : Obj) (k : String) (hk : ¬ ("code" = k)) :
    lookupField (sanitizeCode o) k = lookupField o k := by
  cases hc : lookupField o "code" with
  | none =>
      rw [sanitizeCode_code_none o hc]
      split
      · rw [lookupField_setField, if_neg hk]
      · rw [lookupField_setField, if_neg hk]
  | some v =>
      cases v with
      | num n => rw [sanitizeCode_code_num o n hc]
      | str s =>
          rw [sanitizeCode_code_nonnum o _ hc (fun n hn => JVal.noConfusion hn),
            lookupField_setField, if_neg hk]
      | other =>
          rw [sanitizeCode_code_nonnum o _ hc (fun n hn => JVal.noConfusion hn),
            lookupField_setField, if_neg hk]

theorem finalizeErrno_some (o : Obj) (v : JVal) (h : lookupField o "errno" = some v) :
    finalizeErrno o = (o, []) := by
  unfold finalizeErrno
  rw [h]

theorem finalizeErrno_none (o : Obj) (h : lookupField o "errno" = none) :
    finalizeErrno o = (setField o "errno" (JVal.num 999),
      [⟨"error.wrap", "unexpected error", o⟩]) := by
  unfold finalizeErrno
  rw [h]

theorem working_token_errno :
    lookupField (working invalidTokenRaw) "errno" = some (JVal.num 110) := rfl

theorem working_ts_errno (now : Nat) :
    lookupField (working (invalidTimestampRaw now)) "errno" = some (JVal.num 111) := rfl

theorem working_nonce_errno :
    lookupField (working invalidNonceRaw) "errno" = some (JVal.num 115) := rfl

theorem working_sig_errno (m : Option JVal) :
    lookupField (working (invalidSignatureRaw m)) "errno" = some (JVal.num 109) := rfl

theorem working_toolarge_errno :
    lookupField (working requestBodyTooLargeRaw) "errno" = some (JVal.num 113) := rfl


theorem wrap_errno_present (now : Nat) (src : RawError) (v : JVal)
    (h : lookupField (working src) "errno" = some v) :
    wrap now src = postStages (working src, []) := by
  conv_lhs => unfold wrap
  rw [dif_neg (by simp [h])]

theorem wrap_noclassify (now : Nat) (src : RawError)
    (h : ¬ (lookupField (working src) "errno" = none ∧
          (lookupField (working src) "code" = some (JVal.num 401) ∨
           (lookupField (working src) "code" = some (JVal.num 400) ∧
            tooLargeJ (lookupField (working src) "message") = true)))) :
    wrap now src = postStages (working src, []) := by
  conv_lhs => unfold wrap
  by_cases hE : lookupField (working src) "errno" = none
  · rw [dif_pos hE]
    have h401 : ¬ lookupField (working src) "code" = some (JVal.num 401) :=
      fun hc => h ⟨hE, Or.inl hc⟩
    rw [if_neg h401]
    by_cases h400 : lookupField (working src) "code" = some (JVal.num 400)
    · have hT : ¬ tooLargeJ (lookupField (working src) "message") = true :=
        fun ht => h ⟨hE, Or.inr ⟨h400, ht⟩⟩
      rw [if_pos h400, if_neg hT]
    · rw [if_neg h400]
  · rw [dif_neg hE]

theorem wrap_classified_token (now : Nat) (src : RawError)
    (hE : lookupField (working src) "errno" = none)
    (hC : lookupField (working src) "code" = some (JVal.num 401))
    (hM : lookupField (working src) "message" = some (JVal.str "Unknown credentials") ∨
          lookupField (working src) "message" = some (JVal.str "Invalid credentials")) :
    wrap now src = postStages (wrap now invalidTokenRaw) := by
  conv_lhs => unfold wrap
  rw [dif_pos hE, if_pos hC]
  rcases hM with hM | hM
  · rw [if_pos hM]
  · rw [if_neg (by rw [hM]; decide), if_pos hM]

theorem wrap_classified_ts (now : Nat) (src : RawError)
    (hE : lookupField (working src) "errno" = none)
    (hC : lookupField (working src) "code" = some (JVal.num 401))
    (hM : lookupField (working src) "message" = some (JVal.str "Stale timestamp")) :
    wrap now src = postStages (wrap now (invalidTimestampRaw now)) := by
  conv_lhs => unfold wrap
  rw [dif_pos hE, if_pos hC, if_neg (by rw [hM]; decide), if_neg (by rw [hM]; decide),
    if_pos hM]

theorem wrap_classified_nonce (now : Nat) (src : RawError)
    (hE : lookupField (working src) "errno" = none)
    (hC : lookupField (working src) "code" = some (JVal.num 401))
    (hM : lookupField (working src) "message" = some (JVal.str "Invalid nonce")) :
    wrap now src = postStages (wrap now invalidNonceRaw) := by
  conv_lhs => unfold wrap
  rw [dif_pos hE, if_pos hC, if_neg (by rw [hM]; decide), if_neg (by rw [hM]; decide),
    if_neg (by rw [hM]; decide), if_pos hM]

theorem wrap_classified_sig (now : Nat) (src : RawError)
    (hE : lookupField (working src) "errno" = none)
    (hC : lookupField (working src) "code" = some (JVal.num 401))
    (h1 : ¬ lookupField (working src) "message" = some (JVal.str "Unknown credentials"))
    (h2 : ¬ lookupField (working src) "message" = some (JVal.str "Invalid credentials"))
    (h3 : ¬ lookupField (working src) "message" = some (JVal.str "Stale timestamp"))
    (h4 : ¬ lookupField (working src) "message" = some (JVal.str "Invalid nonce")) :
    wrap now src = postStages (wrap now (invalidSignatureRaw (lookupField (working src) "message"))) := by
  conv_lhs => unfold wrap
  rw [dif_pos hE, if_pos hC, if_neg h1, if_neg h2, if_neg h3, if_neg h4]

theorem wrap_classified_toolarge (now : Nat) (src : RawError)
    (hE : lookupField (working src) "errno" = none)
    (hC : lookupField (working src) "code" = some (JVal.num 400))
    (hT : tooLargeJ (lookupField (working src) "message") = true) :
    wrap now src = postStages (wrap now requestBodyTooLargeRaw) := by
  conv_lhs => unfold wrap
  rw [dif_pos hE, if_neg (by rw [hC]; decide), if_pos hC, if_pos hT]


theorem wrap_token_eval (now : Nat) : wrap now invalidTokenRaw = (tokenPayload, []) := by
  rw [wrap_errno_present now invalidTokenRaw _ working_token_errno]
  decide

theorem wrap_ts_eval (now : Nat) :
    wrap now (invalidTimestampRaw now) = (tsPayload now, []) := by
  rw [wrap_errno_present now (invalidTimestampRaw now) _ (working_ts_errno now)]
  rfl

theorem wrap_nonce_eval (now : Nat) : wrap now invalidNonceRaw = (noncePayload, []) := by
  rw [wrap_errno_present now invalidNonceRaw _ working_nonce_errno]
  decide

theorem wrap_sig_eval (now : Nat) (m : Option JVal) :
    wrap now (invalidSignatureRaw m) = (sigPayload m, []) := by
  rw [wrap_errno_present now (invalidSignatureRaw m) _ (working_sig_errno m)]
  rfl

theorem wrap_toolarge_eval (now : Nat) :
    wrap now requestBodyTooLargeRaw = (tooLargePayload, []) := by
  rw [wrap_errno_present now requestBodyTooLargeRaw _ working_toolarge_errno]
  decide

theorem postStages_def (o : Obj) (l : List LogEvent) :
    postStages (o, l) =
      (boomify (finalizeErrno (sanitizeCode o)).1, l ++ (finalizeErrno (sanitizeCode o)).2) := rfl

theorem nodup_keys_DEFAULTS : (DEFAULTS.map Prod.fst).Nodup := by decide

theorem nodup_keys_working (src : RawError) : ((working src).map Prod.fst).Nodup := by
  unfold working workingOn applyToDefaults
  cases hsm : srcMessage src with
  | some m => exact nodup_keys_setField _ _ _ (nodup_keys_mergeObj _ _ nodup_keys_DEFAULTS)
  | none => exact nodup_keys_mergeObj _ _ nodup_keys_DEFAULTS

theorem nodup_keys_sanitizeCode (o : Obj) (h : (o.map Prod.fst).Nodup) :
    ((sanitizeCode o).map Prod.fst).Nodup := by
  cases hc : lookupField o "code" with
  | none =>
      rw [sanitizeCode_code_none o hc]
      split
      · exact nodup_keys_setField _ _ _ h
      · exact nodup_keys_setField _ _ _ h
  | some v =>
      cases v with
      | num n => rw [sanitizeCode_code_num o n hc]; exact h
      | str s =>
          rw [sanitizeCode_code_nonnum o _ hc (fun n hn => JVal.noConfusion hn)]
          exact nodup_keys_setField _ _ _ h
      | other =>
          rw [sanitizeCode_code_nonnum o _ hc (fun n hn => JVal.noConfusion hn)]
          exact nodup_keys_setField _ _ _ h

theorem nodup_keys_finalizeErrno (o : Obj) (h : (o.map Prod.fst).Nodup) :
    (((finalizeErrno o).1).map Prod.fst).Nodup := by
  cases he : lookupField o "errno" with
  | none => rw [finalizeErrno_none o he]; exact nodup_keys_setField _ _ _ h
  | some v => rw [finalizeErrno_some o v he]; exact h

theorem lookupField_finalizeErrno_of_ne (o : Obj) (k : String) (hk : ¬ ("errno" = k)) :
    lookupField (finalizeErrno o).1 k = lookupField o k := by
  cases he : lookupField o "errno" with
  | none =>
      rw [finalizeErrno_none o he]
      rw [lookupField_setField, if_neg hk]
  | some v => rw [finalizeErrno_some o v he]

theorem sanitizeCode_code_isSome (o : Obj) :
    ∃ c : Int, lookupField (sanitizeCode o) "code" = some (JVal.num c) := by
  cases hc : lookupField o "code" with
  | none =>
      rw [sanitizeCode_code_none o hc]
      split
      · exact ⟨401, by rw [lookupField_setField]; simp⟩
      · exact ⟨400, by rw [lookupField_setField]; simp⟩
  | some v =>
      cases v with
      | num n => rw [sanitizeCode_code_num o n hc]; exact ⟨n, hc⟩
      | str s =>
          rw [sanitizeCode_code_nonnum o _ hc (fun n hn => JVal.noConfusion hn)]
          exact ⟨500, by rw [lookupField_setField]; simp⟩
      | other =>
          rw [sanitizeCode_code_nonnum o _ hc (fun n hn => JVal.noConfusion hn)]
          exact ⟨500, by rw [lookupField_setField]; simp⟩

theorem postStages_errno_some (o : Obj) (l : List LogEvent) (v : JVal)
    (hnd : (o.map Prod.fst).Nodup) (he : lookupField o "errno" = some v) :
    lookupField (postStages (o, l)).1 "errno" = some v ∧ (postStages (o, l)).2 = l := by
  have hs : lookupField (sanitizeCode o) "errno" = some v := by
    rw [lookupField_sanitizeCode_of_ne o "errno" (by decide)]
    exact he
  rw [postStages_def, finalizeErrno_some _ _ hs]
  exact ⟨lookupField_boomify_of_some _ _ _ (nodup_keys_sanitizeCode o hnd) hs, by simp⟩

theorem postStages_errno_none (o : Obj) (l : List LogEvent)
    (hnd : (o.map Prod.fst).Nodup) (he : lookupField o "errno" = none) :
    lookupField (postStages (o, l)).1 "errno" = some (JVal.num 999) ∧
    (postStages (o, l)).2 = l ++ [⟨"error.wrap", "unexpected error", sanitizeCode o⟩] := by
  have hs : lookupField (sanitizeCode o) "errno" = none := by
    rw [lookupField_sanitizeCode_of_ne o "errno" (by decide)]
    exact he
  rw [postStages_def, finalizeErrno_none _ hs]
  refine ⟨?_, rfl⟩
  apply lookupField_boomify_of_some _ _ _
    (nodup_keys_setField _ _ _ (nodup_keys_sanitizeCode o hnd))
  rw [lookupField_setField]
  simp

theorem postStages_code (o : Obj) (l : List LogEvent) (hnd : (o.map Prod.fst).Nodup) :
    lookupField (postStages (o, l)).1 "code" = lookupField (sanitizeCode o) "code" := by
  obtain ⟨c, hc⟩ := sanitizeCode_code_isSome o
  have hf : lookupField (finalizeErrno (sanitizeCode o)).1 "code" = some (JVal.num c) := by
    rw [lookupField_finalizeErrno_of_ne _ _ (by decide)]
    exact hc
  rw [postStages_def]
  rw [lookupField_boomify_of_some _ _ _
    (nodup_keys_finalizeErrno _ (nodup_keys_sanitizeCode o hnd)) hf, hc]

theorem postStages_message (o : Obj) (l : List LogEvent) (m : JVal)
    (hnd : (o.map Prod.fst).Nodup) (hm : lookupField o "message" = some m) :
    lookupField (postStages (o, l)).1 "message" = some m := by
  have h1 : lookupField (sanitizeCode o) "message" = some m := by
    rw [lookupField_sanitizeCode_of_ne _ _ (by decide)]
    exact hm
  have h2 : lookupField (finalizeErrno (sanitizeCode o)).1 "message" = some m := by
    rw [lookupField_finalizeErrno_of_ne _ _ (by decide)]
    exact h1
  rw [postStages_def]
  exact lookupField_boomify_of_some _ _ _
    (nodup_keys_finalizeErrno _ (nodup_keys_sanitizeCode o hnd)) h2

theorem working_lookup_eq (src : RawError) (k : String) (hk : ¬ ("message" = k))
    (hd : lookupField DEFAULTS k = none) (hnd : (src.fields.map Prod.fst).Nodup) :
    lookupField (working src) k = lookupField src.fields k := by
  unfold working workingOn applyToDefaults
  have core : lookupField (mergeObj DEFAULTS src.fields) k = lookupField src.fields k := by
    cases hl : lookupField src.fields k with
    | some v => exact lookupField_mergeObj_of_some _ _ _ hnd hl _
    | none => rw [lookupField_mergeObj_of_none _ _ hl, hd]
  cases hsm : srcMessage src with
  | some m =>
      rw [lookupField_setField, if_neg hk]
      exact core
  | none => exact core

theorem working_errno (src : RawError) (hnd : (src.fields.map Prod.fst).Nodup) :
    lookupField (working src) "errno" = lookupField src.fields "errno" :=
  working_lookup_eq src "errno" (by decide) (by decide) hnd

theorem working_code (src : RawError) (hnd : (src.fields.map Prod.fst).Nodup) :
    lookupField (working src) "code" = lookupField src.fields "code" :=
  working_lookup_eq src "code" (by decide) (by decide) hnd

theorem working_message (src : RawError) :
    lookupField (working src) "message" = some (workingMessage src) := by
  unfold working workingOn workingMessage
  cases hsm : srcMessage src with
  | some m =>
      rw [lookupField_setField]
      simp
  | none =>
      have hl : lookupField src.fields "message" = none := by
        cases hl2 : lookupField src.fields "message" with
        | none => rfl
        | some m =>
            exfalso
            unfold srcMessage at hsm
            rw [hl2] at hsm
            cases hsm
      unfold applyToDefaults
      rw [lookupField_mergeObj_of_none _ _ hl]
      decide

theorem sigPayload_message (m : Option JVal) :
    lookupField (sigPayload m) "message" =
      some (jsOr m (JVal.str "Invalid request signature")) := rfl

theorem nodup_keys_sigPayload (m : Option JVal) :
    ((sigPayload m).map Prod.fst).Nodup := by
  have h : (sigPayload m).map Prod.fst = ["code", "error", "message", "info", "errno"] := rfl
  rw [h]
  decide

theorem jsOr_str_ne (s : String) (hs : ¬ s = "") (d : JVal) :
    jsOr (some (JVal.str s)) d = JVal.str s := by
  simp [jsOr, jsTruthy, hs]

theorem wrap_401_fields (now : Nat) (src : RawError)
    (hE : lookupField (working src) "errno" = none)
    (hC : lookupField (working src) "code" = some (JVal.num 401)) :
    lookupField (wrap now src).1 "code" = some (JVal.num 401) ∧
    (∃ e : Int, lookupField (wrap now src).1 "errno" = some (JVal.num e)) ∧
    (wrap now src).2 = [] := by
  by_cases m1 : lookupField (working src) "message" = some (JVal.str "Unknown credentials")
  · rw [wrap_classified_token now src hE hC (Or.inl m1), wrap_token_eval]
    exact ⟨by decide, ⟨110, by decide⟩, by decide⟩
  by_cases m2 : lookupField (working src) "message" = some (JVal.str "Invalid credentials")
  · rw [wrap_classified_token now src hE hC (Or.inr m2), wrap_token_eval]
    exact ⟨by decide, ⟨110, by decide⟩, by decide⟩
  by_cases m3 : lookupField (working src) "message" = some (JVal.str "Stale timestamp")
  · rw [wrap_classified_ts now src hE hC m3, wrap_ts_eval]
    exact ⟨rfl, ⟨111, rfl⟩, rfl⟩
  by_cases m4 : lookupField (working src) "message" = some (JVal.str "Invalid nonce")
  · rw [wrap_classified_nonce now src hE hC m4, wrap_nonce_eval]
    exact ⟨by decide, ⟨115, by decide⟩, by decide⟩
  · rw [wrap_classified_sig now src hE hC m1 m2 m3 m4, wrap_sig_eval]
    exact ⟨rfl, ⟨109, rfl⟩, rfl⟩

/-- Claim C1, counterexample: the input whose errno is the string "abc" is
returned with that very string as its errno — the returned errno is defined
but is not an integer, because wrap only tests errno for undefinedness and
never sanitizes its type. -/
theorem C1_counterexample :
    lookupField (wrap 0 ⟨[("errno", JVal.str "abc")], none⟩).1 "errno" = some (JVal.str "abc") ∧
    (∀ e : Int,
      ¬ lookupField (wrap 0 ⟨[("errno", JVal.str "abc")], none⟩).1 "errno" = some (JVal.num e)) := by
  have hp : wrap 0 ⟨[("errno", JVal.str "abc")], none⟩ =
      postStages (working ⟨[("errno", JVal.str "abc")], none⟩, []) :=
    wrap_errno_present 0 _ (JVal.str "abc") (by decide)
  rw [hp]
  refine ⟨by decide, fun e hcontra => ?_⟩
  have hx : lookupField (postStages (working ⟨[("errno", JVal.str "abc")], none⟩, [])).1 "errno" =
      some (JVal.str "abc") := by decide
  rw [hx] at hcontra
  injection hcontra with h2
  exact JVal.noConfusion h2

/-- Claim C1 (amended): for every input, wrap returns normally and the
returned object always has a defined integer code and a defined errno; the
errno is an integer whenever the input's errno field is absent or an
integer (a non-numeric input errno passes through unsanitized), and inputs
carrying neither an errno nor a code field degrade to the generic 999/400
response. -/
theorem C1_totality (now : Nat) (src : RawError)
    (hnd : (src.fields.map Prod.fst).Nodup) :
    (∃ c : Int, lookupField (wrap now src).1 "code" = some (JVal.num c)) ∧
    ((lookupField (wrap now src).1 "errno").isSome = true) ∧
    ((lookupField src.fields "errno" = none ∨
      (∃ e : Int, lookupField src.fields "errno" = some (JVal.num e))) →
      ∃ e : Int, lookupField (wrap now src).1 "errno" = some (JVal.num e)) ∧
    ((lookupField src.fields "errno" = none ∧ lookupField src.fields "code" = none) →
      lookupField (wrap now src).1 "errno" = some (JVal.num 999) ∧
      lookupField (wrap now src).1 "code" = some (JVal.num 400)) := by
  have hwe := working_errno src hnd
  have hwc := working_code src hnd
  have hndw := nodup_keys_working src
  by_cases hE : lookupField (working src) "errno" = none
  · by_cases hC1 : lookupField (working src) "code" = some (JVal.num 401)
    · obtain ⟨hcode, ⟨e, herrno⟩, _⟩ := wrap_401_fields now src hE hC1
      refine ⟨⟨401, hcode⟩, by rw [herrno]; rfl, fun _ => ⟨e, herrno⟩, fun ⟨_, hcn⟩ => ?_⟩
      have hcontra : (none : Option JVal) = some (JVal.num 401) := by
        rw [← hcn, ← hwc]
        exact hC1
      exact Option.noConfusion hcontra
    · by_cases hC4 : lookupField (working src) "code" = some (JVal.num 400) ∧
        tooLargeJ (lookupField (working src) "message") = true
      · obtain ⟨hC400, hT⟩ := hC4
        rw [wrap_classified_toolarge now src hE hC400 hT, wrap_toolarge_eval]
        refine ⟨⟨413, by decide⟩, by decide, fun _ => ⟨113, by decide⟩, fun ⟨_, hcn⟩ => ?_⟩
        have hcontra : (none : Option JVal) = some (JVal.num 400) := by
          rw [← hcn, ← hwc]
          exact hC400
        exact Option.noConfusion hcontra
      · have hpath := wrap_noclassify now src (by
          rintro ⟨hE', hor⟩
          rcases hor with h | h
          · exact hC1 h
          · exact hC4 h)
        rw [hpath]
        obtain ⟨h999, _⟩ := postStages_errno_none (working src) [] hndw hE
        refine ⟨?_, by rw [h999]; rfl, fun _ => ⟨999, h999⟩, fun ⟨_, hcn⟩ => ⟨h999, ?_⟩⟩
        · rw [postStages_code _ _ hndw]
          exact sanitizeCode_code_isSome (working src)
        · have hwcn : lookupField (working src) "code" = none := by
            rw [hwc]
            exact hcn
          rw [postStages_code _ _ hndw, sanitizeCode_code_none _ hwcn,
            if_neg (by rw [hE]; decide), lookupField_setField]
          simp
  · obtain ⟨v, hv⟩ : ∃ v, lookupField (working src) "errno" = some v := by
      cases h2 : lookupField (working src) "errno" with
      | none => exact absurd h2 hE
      | some v => exact ⟨v, rfl⟩
    rw [wrap_errno_present now src v hv]
    obtain ⟨hes, _⟩ := postStages_errno_some (working src) [] v hndw hv
    refine ⟨?_, by rw [hes]; rfl, fun hyp => ?_, fun ⟨hen, _⟩ => ?_⟩
    · rw [postStages_code _ _ hndw]
      exact sanitizeCode_code_isSome _
    · rcases hyp with h | ⟨e, he⟩
      · have hcontra : lookupField (working src) "errno" = none := by
          rw [hwe]
          exact h
        rw [hcontra] at hv
        exact Option.noConfusion hv
      · have hnum : lookupField (working src) "errno" = some (JVal.num e) := by
          rw [hwe]
          exact he
        rw [hnum] at hv
        injection hv with hv2
        exact ⟨e, by rw [hes, ← hv2]⟩
    · have hcontra : lookupField (working src) "errno" = none := by
        rw [hwe]
        exact hen
      rw [hcontra] at hv
      exact Option.noConfusion hv

/-- Witness for C1 at the input with one unrelated field. -/
theorem C1_witness :
    ∃ c : Int,
      lookupField (wrap 0 ⟨[("foo", JVal.other)], none⟩).1 "code" = some (JVal.num c) :=
  (C1_totality 0 ⟨[("foo", JVal.other)], none⟩ (by decide)).1

/-- Claim C2, counterexample: with code absent and errno 112, wrap returns
code 400, not the Catalog's default 411 — wrap never consults the Catalog
when deriving a status. -/
theorem C2_counterexample :
    lookupField (wrap 0 ⟨[("errno", JVal.num 112)], none⟩).1 "code" = some (JVal.num 400) ∧
    ¬ lookupField (wrap 0 ⟨[("errno", JVal.num 112)], none⟩).1 "code" = some (JVal.num 411) := by
  rw [wrap_noclassify 0 _ (by decide)]
  exact ⟨by decide, by decide⟩

/-- Claim C2 (amended): for every input whose code field is absent, the
returned status is derived from the errno alone — 401 when the input errno
is 109, 110 or 111, and 400 for every other errno (the Catalog's per-entry
defaults are never consulted by wrap). -/
theorem C2_code_from_errno (now : Nat) (src : RawError)
    (hnd : (src.fields.map Prod.fst).Nodup)
    (hcode : lookupField src.fields "code" = none) :
    lookupField (wrap now src).1 "code" =
      some (JVal.num (if lookupField src.fields "errno" = some (JVal.num 109) ∨
                         lookupField src.fields "errno" = some (JVal.num 110) ∨
                         lookupField src.fields "errno" = some (JVal.num 111)
                      then 401 else 400)) := by
  have hwc : lookupField (working src) "code" = none := by
    rw [working_code src hnd]
    exact hcode
  have hwe := working_errno src hnd
  have hpath := wrap_noclassify now src (by
    rintro ⟨hE, hor⟩
    rcases hor with h | ⟨h, _⟩ <;> rw [hwc] at h <;> exact Option.noConfusion h)
  rw [hpath, postStages_code _ _ (nodup_keys_working src), sanitizeCode_code_none _ hwc, hwe]
  split
  · rename_i h
    simp [lookupField_setField, h]
  · rename_i h
    simp [lookupField_setField, h]

/-- Witness for C2 at the input with errno 110 and no code. -/
theorem C2_witness :
    lookupField (wrap 0 ⟨[("errno", JVal.num 110)], none⟩).1 "code" = some (JVal.num 401) := by
  have h := C2_code_from_errno 0 ⟨[("errno", JVal.num 110)], none⟩ (by decide) (by decide)
  simpa using h

/-- Claim C6: an input that carries an errno bypasses classification and
keeps that errno, whatever it is. -/
theorem C6_errno_passthrough (now : Nat) (src : RawError) (v : JVal)
    (hnd : (src.fields.map Prod.fst).Nodup)
    (h : lookupField src.fields "errno" = some v) :
    lookupField (wrap now src).1 "errno" = some v := by
  have hw : lookupField (working src) "errno" = some v := by
    rw [working_errno src hnd]
    exact h
  rw [wrap_errno_present now src v hw]
  exact (postStages_errno_some _ [] v (nodup_keys_working src) hw).1

/-- Witness for C6 at the input of spec section 8: errno 105, code 400,
message "m". -/
theorem C6_witness :
    lookupField (wrap 0 ⟨[("errno", JVal.num 105), ("code", JVal.num 400),
      ("message", JVal.str "m")], none⟩).1 "errno" = some (JVal.num 105) :=
  C6_errno_passthrough 0 _ (JVal.num 105) (by decide) (by decide)

/-- Claim C7: wrapping a code-401 "Stale timestamp" error yields errno 111,
code 401, and a serverTime equal to the clock reading in whole epoch
seconds; the model reads the clock once, so the claimed two-second
tolerance holds with room to spare. -/
theorem C7_stale_timestamp (now : Nat) :
    lookupField (wrap now ⟨[("code", JVal.num 401),
        ("message", JVal.str "Stale timestamp")], none⟩).1 "errno" = some (JVal.num 111) ∧
    lookupField (wrap now ⟨[("code", JVal.num 401),
        ("message", JVal.str "Stale timestamp")], none⟩).1 "code" = some (JVal.num 401) ∧
    lookupField (wrap now ⟨[("code", JVal.num 401),
        ("message", JVal.str "Stale timestamp")], none⟩).1 "serverTime" =
      some (JVal.num (Int.ofNat (now / 1000))) := by
  rw [wrap_classified_ts now _ (by decide) (by decide) (by decide), wrap_ts_eval]
  exact ⟨rfl, rfl, rfl⟩

/-- Witness for C7 at clock reading 5432 milliseconds. -/
theorem C7_witness :
    lookupField (wrap 5432 ⟨[("code", JVal.num 401),
        ("message", JVal.str "Stale timestamp")], none⟩).1 "serverTime" =
      some (JVal.num 5) := by
  have h := (C7_stale_timestamp 5432).2.2
  simpa using h

/-- Claim C8: with no errno and code 400, a message matching the TOO_LARGE
prefix pattern classifies to errno 113 with code 413, and a non-matching
message falls through to the unclassified 999 path with code 400. -/
theorem C8_too_large (now : Nat) (src : RawError)
    (hnd : (src.fields.map Prod.fst).Nodup)
    (hE : lookupField src.fields "errno" = none)
    (hC : lookupField src.fields "code" = some (JVal.num 400)) :
    (tooLargeJ (some (workingMessage src)) = true →
      lookupField (wrap now src).1 "errno" = some (JVal.num 113) ∧
      lookupField (wrap now src).1 "code" = some (JVal.num 413)) ∧
    (tooLargeJ (some (workingMessage src)) = false →
      lookupField (wrap now src).1 "errno" = some (JVal.num 999) ∧
      lookupField (wrap now src).1 "code" = some (JVal.num 400)) := by
  have hwE : lookupField (working src) "errno" = none := by
    rw [working_errno src hnd]
    exact hE
  have hwC : lookupField (working src) "code" = some (JVal.num 400) := by
    rw [working_code src hnd]
    exact hC
  have hwM := working_message src
  constructor
  · intro hT
    have hT' : tooLargeJ (lookupField (working src) "message") = true := by
      rw [hwM]
      exact hT
    rw [wrap_classified_toolarge now src hwE hwC hT', wrap_toolarge_eval]
    exact ⟨by decide, by decide⟩
  · intro hF
    have hF' : tooLargeJ (lookupField (working src) "message") = false := by
      rw [hwM]
      exact hF
    have hpath := wrap_noclassify now src (by
      rintro ⟨hE', hor⟩
      rcases hor with h | ⟨_, hT2⟩
      · rw [hwC] at h
        exact absurd h (by decide)
      · rw [hF'] at hT2
        exact Bool.noConfusion hT2)
    rw [hpath]
    refine ⟨(postStages_errno_none _ [] (nodup_keys_working src) hwE).1, ?_⟩
    rw [postStages_code _ _ (nodup_keys_working src), sanitizeCode_code_num _ 400 hwC]
    exact hwC

/-- Witness for C8: a matching and a non-matching 400-message. -/
theorem C8_witness :
    (lookupField (wrap 0 ⟨[("code", JVal.num 400),
        ("message", JVal.str "Payload size greater than maximum allowed: 99")],
        none⟩).1 "errno" = some (JVal.num 113)) ∧
    (lookupField (wrap 0 ⟨[("code", JVal.num 400),
        ("message", JVal.str "just wrong")], none⟩).1 "errno" = some (JVal.num 999)) :=
  ⟨((C8_too_large 0 _ (by decide) (by decide) (by decide)).1 (by decide)).1,
   ((C8_too_large 0 _ (by decide) (by decide) (by decide)).2 (by decide)).1⟩

/-- Claim C9: a code field that is present but not a number is rewritten to
the numeric status 500. -/
theorem C9_nonnumeric_code (now : Nat) (src : RawError) (v : JVal)
    (hnd : (src.fields.map Prod.fst).Nodup)
    (hc : lookupField src.fields "code" = some v)
    (hv : ∀ n : Int, ¬ v = JVal.num n) :
    lookupField (wrap now src).1 "code" = some (JVal.num 500) := by
  have hwc : lookupField (working src) "code" = some v := by
    rw [working_code src hnd]
    exact hc
  have hpath := wrap_noclassify now src (by
    rintro ⟨hE, hor⟩
    rcases hor with h | ⟨h, _⟩ <;> rw [hwc] at h <;>
      (injection h with h2; exact hv _ h2))
  rw [hpath, postStages_code _ _ (nodup_keys_working src),
    sanitizeCode_code_nonnum _ _ hwc hv, lookupField_setField]
  simp

/-- Witness for C9 at the spec's example wrap with code "weird". -/
theorem C9_witness :
    lookupField (wrap 0 ⟨[("code", JVal.str "weird")], none⟩).1 "code" =
      some (JVal.num 500) :=
  C9_nonnumeric_code 0 _ (JVal.str "weird") (by decide) (by decide)
    (fun n h => JVal.noConfusion h)

/-- Claim C3, counterexample: with code 401 and the empty-string message,
the classifier falls to the invalid-signature branch (errno 109) but the
returned message is the generic template, not the original empty input
text, because invalidSignature replaces falsy messages via the
or-else operator on line 166. -/
theorem C3_counterexample :
    lookupField (wrap 0 ⟨[("code", JVal.num 401), ("message", JVal.str "")], none⟩).1
        "errno" = some (JVal.num 109) ∧
    lookupField (wrap 0 ⟨[("code", JVal.num 401), ("message", JVal.str "")], none⟩).1
        "message" = some (JVal.str "Invalid request signature") ∧
    ¬ lookupField (wrap 0 ⟨[("code", JVal.num 401), ("message", JVal.str "")], none⟩).1
        "message" = some (JVal.str "") := by
  rw [wrap_classified_sig 0 _ (by decide) (by decide) (by decide) (by decide) (by decide)
    (by decide), wrap_sig_eval]
  exact ⟨by decide, by decide, by decide⟩

/-- Claim C3 (amended): with no errno and code 401, wrap classifies by
exact message match in order — "Unknown credentials" and "Invalid
credentials" yield errno 110, "Stale timestamp" yields 111, "Invalid
nonce" yields 115, and any other message yields errno 109, the returned
message equalling the original text whenever that text is a non-empty
string (a falsy message is replaced by the generic template); the code is
401 in every case. -/
theorem C3_message_classification (now : Nat) (src : RawError)
    (hnd : (src.fields.map Prod.fst).Nodup)
    (hE : lookupField src.fields "errno" = none)
    (hC : lookupField src.fields "code" = some (JVal.num 401)) :
    lookupField (wrap now src).1 "code" = some (JVal.num 401) ∧
    ((workingMessage src = JVal.str "Unknown credentials" ∨
      workingMessage src = JVal.str "Invalid credentials") →
      lookupField (wrap now src).1 "errno" = some (JVal.num 110)) ∧
    (workingMessage src = JVal.str "Stale timestamp" →
      lookupField (wrap now src).1 "errno" = some (JVal.num 111)) ∧
    (workingMessage src = JVal.str "Invalid nonce" →
      lookupField (wrap now src).1 "errno" = some (JVal.num 115)) ∧
    (¬ workingMessage src = JVal.str "Unknown credentials" →
     ¬ workingMessage src = JVal.str "Invalid credentials" →
     ¬ workingMessage src = JVal.str "Stale timestamp" →
     ¬ workingMessage src = JVal.str "Invalid nonce" →
      lookupField (wrap now src).1 "errno" = some (JVal.num 109) ∧
      ∀ s : String, ¬ s = "" → workingMessage src = JVal.str s →
        lookupField (wrap now src).1 "message" = some (JVal.str s)) := by
  have hwE : lookupField (working src) "errno" = none := by
    rw [working_errno src hnd]
    exact hE
  have hwC : lookupField (working src) "code" = some (JVal.num 401) := by
    rw [working_code src hnd]
    exact hC
  have hwM := working_message src
  refine ⟨(wrap_401_fields now src hwE hwC).1, ?_, ?_, ?_, ?_⟩
  · rintro (hm | hm)
    · rw [wrap_classified_token now src hwE hwC (Or.inl (by rw [hwM, hm])), wrap_token_eval]
      decide
    · rw [wrap_classified_token now src hwE hwC (Or.inr (by rw [hwM, hm])), wrap_token_eval]
      decide
  · intro hm
    rw [wrap_classified_ts now src hwE hwC (by rw [hwM, hm]), wrap_ts_eval]
    rfl
  · intro hm
    rw [wrap_classified_nonce now src hwE hwC (by rw [hwM, hm]), wrap_nonce_eval]
    decide
  · intro h1 h2 h3 h4
    have H : ∀ t : String, ¬ workingMessage src = JVal.str t →
        ¬ lookupField (working src) "message" = some (JVal.str t) := by
      intro t ht hcontra
      rw [hwM] at hcontra
      injection hcontra with h5
      exact ht h5
    rw [wrap_classified_sig now src hwE hwC (H _ h1) (H _ h2) (H _ h3) (H _ h4), wrap_sig_eval]
    refine ⟨rfl, fun s hs hms => ?_⟩
    rw [hwM, hms]
    exact postStages_message (sigPayload (some (JVal.str s))) [] (JVal.str s)
      (nodup_keys_sigPayload _) (by rw [sigPayload_message, jsOr_str_ne s hs])

/-- Witness for C3 at the unclassifiable message "zzz". -/
theorem C3_witness :
    lookupField (wrap 0 ⟨[("code", JVal.num 401), ("message", JVal.str "zzz")], none⟩).1
        "errno" = some (JVal.num 109) ∧
    lookupField (wrap 0 ⟨[("code", JVal.num 401), ("message", JVal.str "zzz")], none⟩).1
        "message" = some (JVal.str "zzz") := by
  have h := (C3_message_classification 0
    ⟨[("code", JVal.num 401), ("message", JVal.str "zzz")], none⟩
    (by decide) (by decide) (by decide)).2.2.2.2
    (by decide) (by decide) (by decide) (by decide)
  exact ⟨h.1, h.2 "zzz" (by decide) (by decide)⟩

/-- Claim C4, counterexample: an errno-less input with code 403 cannot be
classified, and wrap returns errno 999 but code 403, not the claimed 400
— an unclassified numeric code passes through. -/
theorem C4_counterexample :
    lookupField (wrap 0 ⟨[("code", JVal.num 403)], none⟩).1 "errno" = some (JVal.num 999) ∧
    lookupField (wrap 0 ⟨[("code", JVal.num 403)], none⟩).1 "code" = some (JVal.num 403) ∧
    ¬ lookupField (wrap 0 ⟨[("code", JVal.num 403)], none⟩).1 "code" = some (JVal.num 400) ∧
    classifierMaps (working ⟨[("code", JVal.num 403)], none⟩) = false := by
  rw [wrap_noclassify 0 _ (by decide)]
  exact ⟨by decide, by decide, by decide, by decide⟩

/-- Claim C4 (amended): wrap on the empty object returns errno 999 with
code 400 and emits exactly one log event carrying op "error.wrap", msg
"unexpected error" and the working object as err; every errno-less input
the Classifier cannot map likewise gets errno 999 and exactly that one log
event; and no log event is emitted on any classified path. -/
theorem C4_unclassified_logging (now : Nat) (src : RawError)
    (hnd : (src.fields.map Prod.fst).Nodup) :
    (lookupField (wrap now ⟨[], none⟩).1 "errno" = some (JVal.num 999) ∧
     lookupField (wrap now ⟨[], none⟩).1 "code" = some (JVal.num 400) ∧
     (wrap now ⟨[], none⟩).2 =
       [⟨"error.wrap", "unexpected error", sanitizeCode (working ⟨[], none⟩)⟩]) ∧
    (lookupField src.fields "errno" = none → classifierMaps (working src) = false →
      lookupField (wrap now src).1 "errno" = some (JVal.num 999) ∧
      (wrap now src).2 =
        [⟨"error.wrap", "unexpected error", sanitizeCode (working src)⟩]) ∧
    (lookupField src.fields "errno" = none → classifierMaps (working src) = true →
      (wrap now src).2 = []) := by
  have hwe := working_errno src hnd
  refine ⟨?_, ?_, ?_⟩
  · rw [wrap_noclassify now ⟨[], none⟩ (by decide)]
    refine ⟨by decide, by decide, ?_⟩
    have h := (postStages_errno_none (working ⟨[], none⟩) [] (nodup_keys_working _)
      (by decide)).2
    rw [h]
    rfl
  · intro hE hcm
    have hwE : lookupField (working src) "errno" = none := by
      rw [hwe]
      exact hE
    have h401 : ¬ lookupField (working src) "code" = some (JVal.num 401) := by
      intro hc
      unfold classifierMaps at hcm
      rw [if_pos hc] at hcm
      exact Bool.noConfusion hcm
    have hTL : lookupField (working src) "code" = some (JVal.num 400) →
        tooLargeJ (lookupField (working src) "message") = false := by
      intro hc
      unfold classifierMaps at hcm
      rw [if_neg h401, if_pos hc] at hcm
      exact hcm
    have hpath := wrap_noclassify now src (by
      rintro ⟨hE', hor⟩
      rcases hor with hc | ⟨hc, ht⟩
      · exact h401 hc
      · rw [hTL hc] at ht
        exact Bool.noConfusion ht)
    rw [hpath]
    obtain ⟨h999, hlogs⟩ := postStages_errno_none (working src) [] (nodup_keys_working src) hwE
    refine ⟨h999, ?_⟩
    rw [hlogs]
    rfl
  · intro hE hcm
    have hwE : lookupField (working src) "errno" = none := by
      rw [hwe]
      exact hE
    by_cases h401 : lookupField (working src) "code" = some (JVal.num 401)
    · exact (wrap_401_fields now src hwE h401).2.2
    · by_cases h400 : lookupField (working src) "code" = some (JVal.num 400)
      · have hT : tooLargeJ (lookupField (working src) "message") = true := by
          unfold classifierMaps at hcm
          rw [if_neg h401, if_pos h400] at hcm
          exact hcm
        rw [wrap_classified_toolarge now src hwE h400 hT, wrap_toolarge_eval]
        decide
      · exfalso
        unfold classifierMaps at hcm
        rw [if_neg h401, if_neg h400] at hcm
        exact Bool.noConfusion hcm

/-- Witness for C4 at an unclassifiable input with one unrelated field. -/
theorem C4_witness :
    lookupField (wrap 0 ⟨[("reason", JVal.str "boom")], none⟩).1 "errno" =
      some (JVal.num 999) ∧
    (wrap 0 ⟨[("reason", JVal.str "boom")], none⟩).2 =
      [⟨"error.wrap", "unexpected error",
        sanitizeCode (working ⟨[("reason", JVal.str "boom")], none⟩)⟩] :=
  (C4_unclassified_logging 0 ⟨[("reason", JVal.str "boom")], none⟩ (by decide)).2.1
    (by decide) (by decide)

/-- Claim C5, counterexample: an input carrying the empty-string message is
returned with the empty message — wrap only substitutes the default when
the message property is absent, so the returned message can be empty. -/
theorem C5_counterexample :
    lookupField (wrap 0 ⟨[("message", JVal.str "")], none⟩).1 "message" =
      some (JVal.str "") ∧
    ¬ lookupField (wrap 0 ⟨[("message", JVal.str "")], none⟩).1 "message" =
      some (JVal.str "Unspecified error") := by
  rw [wrap_noclassify 0 _ (by decide)]
  exact ⟨by decide, by decide⟩

/-- Claim C5 (amended): when the input has no own message the returned
message is the non-empty default "Unspecified error"; when the input's own
message is a non-empty string the returned message is a non-empty string.
An input with an empty-string message is returned empty. -/
theorem C5_message_nonempty (now : Nat) (src : RawError)
    (hnd : (src.fields.map Prod.fst).Nodup) :
    (srcMessage src = none →
      lookupField (wrap now src).1 "message" = some (JVal.str "Unspecified error")) ∧
    (∀ s : String, ¬ s = "" → srcMessage src = some (JVal.str s) →
      ∃ t : String, ¬ t = "" ∧
        lookupField (wrap now src).1 "message" = some (JVal.str t)) := by
  have hwM := working_message src
  have hndw := nodup_keys_working src
  constructor
  · intro hsm
    have hwm1 : workingMessage src = JVal.str "Unspecified error" := by
      unfold workingMessage
      rw [hsm]
      rfl
    by_cases hE : lookupField (working src) "errno" = none
    · by_cases hC1 : lookupField (working src) "code" = some (JVal.num 401)
      · rw [wrap_classified_sig now src hE hC1
          (by rw [hwM, hwm1]; decide) (by rw [hwM, hwm1]; decide)
          (by rw [hwM, hwm1]; decide) (by rw [hwM, hwm1]; decide), wrap_sig_eval,
          hwM, hwm1]
        decide
      · by_cases hC4 : lookupField (working src) "code" = some (JVal.num 400) ∧
          tooLargeJ (lookupField (working src) "message") = true
        · exfalso
          obtain ⟨_, hT⟩ := hC4
          rw [hwM, hwm1] at hT
          exact absurd hT (by decide)
        · have hpath := wrap_noclassify now src (by
            rintro ⟨hE', hor⟩
            rcases hor with hc | hc
            · exact hC1 hc
            · exact hC4 hc)
          rw [hpath]
          exact postStages_message _ [] _ hndw (by rw [hwM, hwm1])
    · obtain ⟨v, hv⟩ : ∃ v, lookupField (working src) "errno" = some v := by
        cases h2 : lookupField (working src) "errno" with
        | none => exact absurd h2 hE
        | some v => exact ⟨v, rfl⟩
      rw [wrap_errno_present now src v hv]
      exact postStages_message _ [] _ hndw (by rw [hwM, hwm1])
  · intro s hs hsm
    have hwm2 : workingMessage src = JVal.str s := by
      unfold workingMessage
      rw [hsm]
      rfl
    by_cases hE : lookupField (working src) "errno" = none
    · by_cases hC1 : lookupField (working src) "code" = some (JVal.num 401)
      · by_cases m1 : lookupField (working src) "message" = some (JVal.str "Unknown credentials")
        · rw [wrap_classified_token now src hE hC1 (Or.inl m1), wrap_token_eval]
          exact ⟨"Invalid authentication token in request signature", by decide, by decide⟩
        by_cases m2 : lookupField (working src) "message" = some (JVal.str "Invalid credentials")
        · rw [wrap_classified_token now src hE hC1 (Or.inr m2), wrap_token_eval]
          exact ⟨"Invalid authentication token in request signature", by decide, by decide⟩
        by_cases m3 : lookupField (working src) "message" = some (JVal.str "Stale timestamp")
        · rw [wrap_classified_ts now src hE hC1 m3, wrap_ts_eval]
          exact ⟨"Invalid timestamp in request signature", by decide, rfl⟩
        by_cases m4 : lookupField (working src) "message" = some (JVal.str "Invalid nonce")
        · rw [wrap_classified_nonce now src hE hC1 m4, wrap_nonce_eval]
          exact ⟨"Invalid nonce in request signature", by decide, by decide⟩
        · rw [wrap_classified_sig now src hE hC1 m1 m2 m3 m4, wrap_sig_eval, hwM, hwm2]
          exact ⟨s, hs, postStages_message (sigPayload (some (JVal.str s))) [] (JVal.str s)
            (nodup_keys_sigPayload _) (by rw [sigPayload_message, jsOr_str_ne s hs])⟩
      · by_cases hC4 : lookupField (working src) "code" = some (JVal.num 400) ∧
          tooLargeJ (lookupField (working src) "message") = true
        · obtain ⟨hC400, hT⟩ := hC4
          rw [wrap_classified_toolarge now src hE hC400 hT, wrap_toolarge_eval]
          exact ⟨"Request body too large", by decide, by decide⟩
        · have hpath := wrap_noclassify now src (by
            rintro ⟨hE', hor⟩
            rcases hor with hc | hc
            · exact hC1 hc
            · exact hC4 hc)
          rw [hpath]
          exact ⟨s, hs, postStages_message _ [] _ hndw (by rw [hwM, hwm2])⟩
    · obtain ⟨v, hv⟩ : ∃ v, lookupField (working src) "errno" = some v := by
        cases h2 : lookupField (working src) "errno" with
        | none => exact absurd h2 hE
        | some v => exact ⟨v, rfl⟩
      rw [wrap_errno_present now src v hv]
      exact ⟨s, hs, postStages_message _ [] _ hndw (by rw [hwM, hwm2])⟩

/-- Witness for C5: an input without a message and one with the non-empty
message "hello". -/
theorem C5_witness :
    lookupField (wrap 0 ⟨[("errno", JVal.num 102)], none⟩).1 "message" =
      some (JVal.str "Unspecified error") ∧
    (∃ t : String, ¬ t = "" ∧
      lookupField (wrap 0 ⟨[("message", JVal.str "hello")], none⟩).1 "message" =
        some (JVal.str t)) :=
  ⟨(C5_message_nonempty 0 ⟨[("errno", JVal.num 102)], none⟩ (by decide)).1 (by decide),
   (C5_message_nonempty 0 ⟨[("message", JVal.str "hello")], none⟩ (by decide)).2
     "hello" (by decide) (by decide)⟩

theorem length_halloc (h : Heap) (o : Obj) : (halloc h o).length = h.length + 1 := by
  simp [halloc]

theorem length_hwrite (h : Heap) (a : Nat) (o : Obj) : (hwrite h a o).length = h.length := by
  simp [hwrite]

theorem hread_halloc_lt (h : Heap) (o : Obj) (a : Nat) (ha : a < h.length) :
    hread (halloc h o) a = hread h a := by
  unfold hread halloc
  exact List.getD_append h [o] [] a ha

theorem hread_halloc_self (h : Heap) (o : Obj) : hread (halloc h o) h.length = o := by
  unfold hread halloc
  rw [List.getD_append_right h [o] [] h.length (le_refl _)]
  simp

theorem hread_hwrite_self (h : Heap) (a : Nat) (o : Obj) (ha : a < h.length) :
    hread (hwrite h a o) a = o := by
  unfold hread hwrite
  rw [List.getD_eq_getElem?_getD, List.getElem?_set_eq_of_lt _ ha]
  rfl

theorem hread_hwrite_ne (h : Heap) (a b : Nat) (o : Obj) (hne : ¬ a = b) :
    hread (hwrite h a o) b = hread h b := by
  unfold hread hwrite
  rw [List.getD_eq_getElem?_getD, List.getElem?_set_ne hne,
    ← List.getD_eq_getElem?_getD]

theorem length_workHeap (h : Heap) (srcA defA : Nat) :
    (workHeap h srcA defA).length = h.length + 1 := by
  unfold workHeap
  split
  · rw [length_hwrite, length_halloc]
  · rw [length_halloc]

theorem hread_workHeap_lt (h : Heap) (srcA defA a : Nat) (ha : a < h.length) :
    hread (workHeap h srcA defA) a = hread h a := by
  unfold workHeap
  split
  · rw [hread_hwrite_ne _ _ _ _ (by omega), hread_halloc_lt _ _ _ ha]
  · rw [hread_halloc_lt _ _ _ ha]

theorem hread_workHeap_self (h : Heap) (srcA defA : Nat) :
    hread (workHeap h srcA defA) h.length = workObj h srcA defA := by
  unfold workHeap workObj workingOn
  cases hm : lookupField (hread h srcA) "message" with
  | some m =>
      rw [hread_hwrite_self _ _ _ (by rw [length_halloc]; omega), hread_halloc_self]
      simp [srcMessage, hm, applyToDefaults]
  | none =>
      rw [hread_halloc_self]
      simp [srcMessage, hm, applyToDefaults]

theorem wrapTailH_spec (h : Heap) (objA : Nat) (hobj : objA < h.length) :
    (wrapTailH h objA).1.length = h.length + 1 ∧
    (wrapTailH h objA).2.1 = h.length ∧
    ∀ a, a < h.length → ¬ a = objA → hread (wrapTailH h objA).1 a = hread h a := by
  unfold wrapTailH
  dsimp only
  refine ⟨?_, ?_, ?_⟩
  · rw [length_hwrite, length_halloc, length_hwrite, length_hwrite]
  · rw [length_hwrite, length_hwrite]
  · intro a ha hne
    rw [hread_hwrite_ne _ _ _ _ (by rw [length_hwrite, length_hwrite]; omega),
      hread_halloc_lt _ _ _ (by rw [length_hwrite, length_hwrite]; exact ha),
      hread_hwrite_ne _ _ _ _ (fun hh => hne hh.symm),
      hread_hwrite_ne _ _ _ _ (fun hh => hne hh.symm)]

theorem wrapNoClassifyH_spec (h : Heap) (srcA defA : Nat) :
    (wrapNoClassifyH h srcA defA).1.length = h.length + 2 ∧
    (wrapNoClassifyH h srcA defA).2.1 = h.length + 1 ∧
    ∀ a, a < h.length → hread (wrapNoClassifyH h srcA defA).1 a = hread h a := by
  unfold wrapNoClassifyH
  have hW := length_workHeap h srcA defA
  obtain ⟨hL, hA, hF⟩ := wrapTailH_spec (workHeap h srcA defA) h.length (by rw [hW]; omega)
  refine ⟨by rw [hL, hW], by rw [hA, hW], fun a ha => ?_⟩
  rw [hF a (by rw [hW]; omega) (by omega), hread_workHeap_lt _ _ _ _ ha]

theorem wrapFinishH_frame (t : Heap × Nat × List LogEvent) (h : Heap)
    (hA : t.2.1 < t.1.length) (haddr : h.length ≤ t.2.1)
    (hF : ∀ a, a < h.length → hread t.1 a = hread h a) :
    ∀ a, a < h.length → hread (wrapFinishH t).1 a = hread h a := by
  intro a ha
  unfold wrapFinishH
  dsimp only
  obtain ⟨_, _, hTf⟩ := wrapTailH_spec t.1 t.2.1 hA
  rw [hTf a (by omega) (by omega), hF a ha]

theorem wrapH_branch_classified (h : Heap) (srcA defA : Nat) (lit : Obj)
    (a : Nat) (ha : a < h.length) :
    hread (wrapFinishH (wrapNoClassifyH (halloc (workHeap h srcA defA) lit)
      (workHeap h srcA defA).length defA)).1 a = hread h a := by
  obtain ⟨tL, tA, tF⟩ := wrapNoClassifyH_spec (halloc (workHeap h srcA defA) lit)
    (workHeap h srcA defA).length defA
  refine wrapFinishH_frame _ h ?_ ?_ ?_ a ha
  · rw [tA, tL]
    omega
  · rw [tA, length_halloc, length_workHeap]
    omega
  · intro b hb
    rw [tF b (by rw [length_halloc, length_workHeap]; omega),
      hread_halloc_lt _ _ _ (by rw [length_workHeap]; omega),
      hread_workHeap_lt _ _ _ _ hb]

theorem wrapH_branch_plain (h : Heap) (srcA defA : Nat) (a : Nat) (ha : a < h.length) :
    hread (wrapFinishH (workHeap h srcA defA, h.length, [])).1 a = hread h a := by
  refine wrapFinishH_frame _ h ?_ ?_ ?_ a ha
  · dsimp only
    rw [length_workHeap]
    omega
  · dsimp only
    omega
  · intro b hb
    dsimp only
    exact hread_workHeap_lt _ _ _ _ hb

theorem wrapH_cases (now : Nat) (h : Heap) (srcA defA : Nat) :
    wrapH now h srcA defA = wrapFinishH (workHeap h srcA defA, h.length, []) ∨
    ∃ lit, wrapH now h srcA defA =
      wrapFinishH (wrapNoClassifyH (halloc (workHeap h srcA defA) lit)
        (workHeap h srcA defA).length defA) := by
  unfold wrapH
  by_cases c1 : lookupField (workObj h srcA defA) "errno" = none
  · rw [if_pos c1]
    by_cases c2 : lookupField (workObj h srcA defA) "code" = some (JVal.num 401)
    · rw [if_pos c2]
      by_cases c3 : lookupField (workObj h srcA defA) "message" =
          some (JVal.str "Unknown credentials")
      · rw [if_pos c3]
        exact Or.inr ⟨invalidTokenRaw.fields, rfl⟩
      rw [if_neg c3]
      by_cases c4 : lookupField (workObj h srcA defA) "message" =
          some (JVal.str "Invalid credentials")
      · rw [if_pos c4]
        exact Or.inr ⟨invalidTokenRaw.fields, rfl⟩
      rw [if_neg c4]
      by_cases c5 : lookupField (workObj h srcA defA) "message" =
          some (JVal.str "Stale timestamp")
      · rw [if_pos c5]
        exact Or.inr ⟨(invalidTimestampRaw now).fields, rfl⟩
      rw [if_neg c5]
      by_cases c6 : lookupField (workObj h srcA defA) "message" =
          some (JVal.str "Invalid nonce")
      · rw [if_pos c6]
        exact Or.inr ⟨invalidNonceRaw.fields, rfl⟩
      rw [if_neg c6]
      exact Or.inr
        ⟨(invalidSignatureRaw (lookupField (workObj h srcA defA) "message")).fields, rfl⟩
    · rw [if_neg c2]
      by_cases c7 : lookupField (workObj h srcA defA) "code" = some (JVal.num 400)
      · rw [if_pos c7]
        by_cases c8 : tooLargeJ (lookupField (workObj h srcA defA) "message") = true
        · rw [if_pos c8]
          exact Or.inr ⟨requestBodyTooLargeRaw.fields, rfl⟩
        · rw [if_neg c8]
          exact Or.inl rfl
      · rw [if_neg c7]
        exact Or.inl rfl
  · rw [if_neg c1]
    exact Or.inl rfl

theorem wrapH_frame (now : Nat) (h : Heap) (srcA defA : Nat) :
    ∀ a, a < h.length → hread (wrapH now h srcA defA).1 a = hread h a := by
  intro a ha
  rcases wrapH_cases now h srcA defA with hc | ⟨lit, hc⟩
  · rw [hc]
    exact wrapH_branch_plain h srcA defA a ha
  · rw [hc]
    exact wrapH_branch_classified h srcA defA lit a ha

/-- Claim C10: wrap mutates neither its argument nor the module-level
DEFAULTS object: every heap write of wrapH lands in a freshly allocated
cell, so the source object's fields and the DEFAULTS cell read the same
after the call, and every call sees the same defaults. -/
theorem C10_no_mutation (now : Nat) (h : Heap) (srcA defA : Nat)
    (hs : srcA < h.length) (hd : defA < h.length) :
    hread (wrapH now h srcA defA).1 srcA = hread h srcA ∧
    hread (wrapH now h srcA defA).1 defA = hread h defA ∧
    (hread h defA = DEFAULTS → hread (wrapH now h srcA defA).1 defA = DEFAULTS) := by
  have hf := wrapH_frame now h srcA defA
  exact ⟨hf srcA hs, hf defA hd, fun hD => by rw [hf defA hd]; exact hD⟩

/-- Witness for C10 on a two-cell heap holding a raw error and DEFAULTS. -/
theorem C10_witness :
    hread (wrapH 0 [[("errno", JVal.num 101)], DEFAULTS] 0 1).1 0 =
      [("errno", JVal.num 101)] ∧
    hread (wrapH 0 [[("errno", JVal.num 101)], DEFAULTS] 0 1).1 1 = DEFAULTS := by
  obtain ⟨h1, h2, _⟩ := C10_no_mutation 0 [[("errno", JVal.num 101)], DEFAULTS] 0 1
    (by decide) (by decide)
  exact ⟨by rw [h1]; rfl, by rw [h2]; rfl⟩

end Fxa
